import Mathlib

/-!
Shallow embedding of the timezone-converter core of `src/server.js`.

The conversion core consists of `getOffset`, `convertTime`,
`calculateEpochFromTimezone` and the `/convert-multi` handler loop.  The
external `Intl.DateTimeFormat` civil-time formatter (a boundary dependency of
the repository, assumed correct and DST-aware by the spec) is modelled by an
abstract zone-offset table `TZDB`; a concrete table `tzdb2025` instantiates it
with the published IANA offsets of the five supported zones for 2024-2026.
All instants are integers in epoch milliseconds, offsets are integer minutes.
-/

/-- Abstract timezone rule table: for a zone identifier and an absolute instant
in epoch milliseconds, the zone's UTC offset in minutes (east of UTC positive)
at that instant.  This models the rule data behind the external
`Intl.DateTimeFormat` civil-time formatter, which the spec treats as a correct,
DST-aware boundary dependency. -/
def TZDB : Type := String → Int → Int

/-- Days since 1970-01-01 of a civil date, matching JavaScript `Date.UTC` date
normalisation for year ≥ 1, month 1..14 and arbitrary integer day (an
out-of-range day rolls over into adjacent months, exactly as `Date.UTC`
normalises it). -/
def daysFromCivil (y m d : Int) : Int :=
  let y2 := if m ≤ 2 then y - 1 else y
  let era := (if 0 ≤ y2 then y2 else y2 - 399) / 400
  let yoe := y2 - era * 400
  let mp := (m + 9) % 12
  let doy := (153 * mp + 2) / 5 + d - 1
  let doe := yoe * 365 + yoe / 4 - yoe / 100 + doy
  era * 146097 + doe - 719468

/-- JavaScript `Date.UTC(y, m-1, d, h, mi, s)` in milliseconds. -/
def utcMillis (y m d h mi s : Int) : Int :=
  daysFromCivil y m d * 86400000 + h * 3600000 + mi * 60000 + s * 1000

/-- Modelled from the spec: the external civil-time formatter's year, month,
day, hour, minute and second fields for instant `t` observed in zone `z`,
reinterpreted as UTC fields via `Date.UTC` (lines 49-66 of `src/server.js`).
Formatting an instant in a zone whose offset is `o` minutes yields the civil
fields of `t + o * 60000` read as UTC, truncated to whole seconds. -/
def fmtAsUTC (tzdb : TZDB) (t : Int) (z : String) : Int :=
  (t + tzdb z t * 60000) / 1000 * 1000

/-- Embedding of `getOffset` of `src/server.js` (lines 38-70).  The JavaScript
floating-point division by 60000 is exact at every call site of the program
(whole-minute instants); it is embedded as integer floor division. -/
def getOffset (tzdb : TZDB) (t : Int) (z : String) : Int :=
  -((t - fmtAsUTC tzdb t z) / 60000)

/-- Two-digit decimal rendering used by the `2-digit` `Intl` fields. -/
def pad2 (n : Nat) : String :=
  if n < 10 then "0" ++ toString n else toString n

/-- Modelled from the spec: `Intl.DateTimeFormat` with `hour`, `minute` and
`hour12: false` applied to an instant — the zone-local wall-clock `HH:MM`
of the instant in 24-hour mode. -/
def formatHHMM (tzdb : TZDB) (t : Int) (z : String) : String :=
  let loc := t + tzdb z t * 60000
  pad2 (loc % 86400000 / 3600000).toNat ++ ":" ++ pad2 (loc % 3600000 / 60000).toNat

/-- A destructured JavaScript value from `str.split(sep).map(Number)`:
`missing` for a component beyond the split's length, `nan` for a non-numeric
component, `num n` for a numeric one. -/
inductive JsVal : Type
  | missing : JsVal
  | nan : JsVal
  | num : Int → JsVal
deriving DecidableEq

/-- Modelled from the spec: JavaScript `Number(s)` restricted to the component
strings of the spec's `YYYY-MM-DD` / `HH:MM` input formats — a nonempty digit
string is its decimal value, the empty string coerces to 0, anything else is
NaN. -/
def jsNumber (s : String) : JsVal :=
  if s.data = [] then .num 0
  else if s.data.all Char.isDigit then
    .num (s.data.foldl (fun a c => a * 10 + ((c.toNat : Int) - 48)) 0)
  else .nan

/-- Split a character list on a separator, JavaScript style (keeps empty
pieces; the empty input yields one empty piece). -/
def jsSplitAux (c : Char) : List Char → String → List String
  | [], acc => [acc]
  | x :: xs, acc => if x = c then acc :: jsSplitAux c xs "" else jsSplitAux c xs (acc.push x)

/-- JavaScript `String.prototype.split` with a one-character separator. -/
def jsSplit (s : String) (c : Char) : List String :=
  jsSplitAux c s.data ""

/-- Destructured component `i` of `str.split(sep).map(Number)`: `missing` when
the split yields fewer pieces than the destructuring pattern names. -/
def compAt (l : List String) (i : Nat) : JsVal :=
  match l.get? i with
  | some s => jsNumber s
  | none => .missing

/-- Date component `i` (0 = year, 1 = month, 2 = day) of
`dateStr.split("-").map(Number)`. -/
def dComp (ds : String) (i : Nat) : JsVal :=
  compAt (jsSplit ds '-') i

/-- Time component `i` (0 = hour, 1 = minute) of
`timeStr.split(":").map(Number)`. -/
def tComp (ts : String) (i : Nat) : JsVal :=
  compAt (jsSplit ts ':') i

/-- JavaScript falsiness of a destructured numeric component (`!x`). -/
def isFalsy : JsVal → Bool
  | .missing => true
  | .nan => true
  | .num n => n == 0

/-- JavaScript loose null test (`x == null`), true exactly for `undefined`. -/
def isNullish : JsVal → Bool
  | .missing => true
  | _ => false

/-- JavaScript `Number.isNaN(x)`. -/
def isNaNval : JsVal → Bool
  | .nan => true
  | _ => false

/-- The input-validity check shared verbatim by `convertTime` (lines 90-103)
and `calculateEpochFromTimezone` (lines 356-369) of `src/server.js`. -/
def invalidCheck (ds ts : String) : Bool :=
  isFalsy (dComp ds 0) || isFalsy (dComp ds 1) || isFalsy (dComp ds 2) ||
    isNullish (tComp ts 0) || isNullish (tComp ts 1) ||
    isNaNval (dComp ds 0) || isNaNval (dComp ds 1) || isNaNval (dComp ds 2) ||
    isNaNval (tComp ts 0) || isNaNval (tComp ts 1)

/-- Numeric value of a component that passed the validity check. -/
def getNum : JsVal → Int
  | .num n => n
  | _ => 0

/-- The fixed supported zone list (lines 118-124 and 265-271 of
`src/server.js`). -/
def allZones : List String :=
  ["America/Santiago", "America/New_York", "America/Argentina/Buenos_Aires",
   "America/Bogota", "America/Santo_Domingo"]

/-- Embedding of `calculateEpochFromTimezone` (lines 352-376 of
`src/server.js`): parse, validate, then anchor the civil fields as UTC,
resolve the source offset at that anchor and subtract it (`* 60 * 1000` in the
source is written `* 60000`). -/
def calculateEpochFromTimezone (tzdb : TZDB) (dateStr timeStr sourceTimezone : String) :
    Except String Int :=
  if invalidCheck dateStr timeStr then .error "Invalid date or time format"
  else
    let y := getNum (dComp dateStr 0)
    let mo := getNum (dComp dateStr 1)
    let d := getNum (dComp dateStr 2)
    let h := getNum (tComp timeStr 0)
    let mi := getNum (tComp timeStr 1)
    let anchorUTC := utcMillis y mo d h mi 0
    let offsetSource := getOffset tzdb anchorUTC sourceTimezone
    .ok (utcMillis y mo d h mi 0 - offsetSource * 60000)

/-- Embedding of `convertTime` (lines 87-144 of `src/server.js`): same parse,
validation and epoch computation, then the fixed zone list minus the source is
formatted at the resolved instant. -/
def convertTime (tzdb : TZDB) (dateStr timeStr : String)
    (sourceTimezone : String := "America/Santiago") :
    Except String (List (String × String)) :=
  if invalidCheck dateStr timeStr then .error "Invalid date or time format"
  else
    let y := getNum (dComp dateStr 0)
    let mo := getNum (dComp dateStr 1)
    let d := getNum (dComp dateStr 2)
    let h := getNum (tComp timeStr 0)
    let mi := getNum (tComp timeStr 1)
    let anchorUTC := utcMillis y mo d h mi 0
    let offsetSource := getOffset tzdb anchorUTC sourceTimezone
    let epochUTC := utcMillis y mo d h mi 0 - offsetSource * 60000
    let zones := allZones.filter (fun tz => tz != sourceTimezone)
    .ok (zones.map (fun tz => (tz, formatHHMM tzdb epochUTC tz)))

/-- Embedding of the `/convert-multi` handler core (lines 264-286 of
`src/server.js`): resolve the epoch via `calculateEpochFromTimezone`, then
format it in every supported zone, the source included. -/
def convertMulti (tzdb : TZDB) (dateStr timeStr sourceTimezone : String) :
    Except String (List (String × String)) :=
  (calculateEpochFromTimezone tzdb dateStr timeStr sourceTimezone).map
    (fun epochUTC => allZones.map (fun tz => (tz, formatHHMM tzdb epochUTC tz)))

/-- The epoch computation of both entry points on already-parsed fields. -/
def epochFromFields (tzdb : TZDB) (y mo d h mi : Int) (src : String) : Int :=
  utcMillis y mo d h mi 0 - getOffset tzdb (utcMillis y mo d h mi 0) src * 60000

/-- Modelled from the spec: re-resolve a reported zone-local wall-clock reading
back to an absolute instant via the Offset Resolver (the consistency check of
spec section 8) — the zone's civil fields of the instant at minute granularity
are reinterpreted as UTC to form an anchor, and the anchor minus the offset
resolved at it is the re-resolved instant. -/
def reResolve (tzdb : TZDB) (e : Int) (z : String) : Int :=
  let a := (e + tzdb z e * 60000) / 60000 * 60000
  a - getOffset tzdb a z * 60000

/-- Modelled from the spec: published IANA offsets (minutes east of UTC) of
the five supported zones, with the 2024-2026 DST cutovers of
America/New_York (EST -300 / EDT -240, second Sunday of March 07:00 UTC to
first Sunday of November 06:00 UTC) and America/Santiago (standard -240 /
DST -180, DST from the first Sunday on or after September 2 at 04:00 UTC to
the first Sunday on or after April 2 at 03:00 UTC) written as explicit UTC
cutover instants.  Unsupported identifiers map to offset 0. -/
def tzdb2025 : TZDB := fun z t =>
  if z = "America/New_York" then
    if t < utcMillis 2024 3 10 7 0 0 then -300
    else if t < utcMillis 2024 11 3 6 0 0 then -240
    else if t < utcMillis 2025 3 9 7 0 0 then -300
    else if t < utcMillis 2025 11 2 6 0 0 then -240
    else if t < utcMillis 2026 3 8 7 0 0 then -300
    else -240
  else if z = "America/Santiago" then
    if t < utcMillis 2024 4 7 3 0 0 then -180
    else if t < utcMillis 2024 9 8 4 0 0 then -240
    else if t < utcMillis 2025 4 6 3 0 0 then -180
    else if t < utcMillis 2025 9 7 4 0 0 then -240
    else if t < utcMillis 2026 4 5 3 0 0 then -180
    else -240
  else if z = "America/Argentina/Buenos_Aires" then -180
  else if z = "America/Bogota" then -300
  else if z = "America/Santo_Domingo" then -240
  else 0

/-! Helper lemmas shared by the claim theorems. -/

/-- At any whole-second instant the offset resolver is exact: it returns the
rule table's offset for the zone at that instant. -/
theorem getOffset_exact (tzdb : TZDB) (t : Int) (z : String) (ht : (1000 : Int) ∣ t) :
    getOffset tzdb t z = tzdb z t := by
  unfold getOffset fmtAsUTC
  omega

/-- Civil fields with zero seconds always land on a whole minute. -/
theorem utcMillis_dvd (y mo d h mi : Int) : (60000 : Int) ∣ utcMillis y mo d h mi 0 :=
  ⟨daysFromCivil y mo d * 1440 + h * 60 + mi, by unfold utcMillis; ring⟩

/-- On successfully parsed components, `calculateEpochFromTimezone` returns the
anchor-resolved epoch. -/
theorem calcEpoch_ok (tzdb : TZDB) (ds ts src : String) (y mo d h mi : Int)
    (hd0 : dComp ds 0 = .num y) (hd1 : dComp ds 1 = .num mo) (hd2 : dComp ds 2 = .num d)
    (ht0 : tComp ts 0 = .num h) (ht1 : tComp ts 1 = .num mi)
    (hy : y ≠ 0) (hmo : mo ≠ 0) (hdd : d ≠ 0) :
    calculateEpochFromTimezone tzdb ds ts src = .ok (epochFromFields tzdb y mo d h mi src) := by
  have hinv : invalidCheck ds ts = false := by
    unfold invalidCheck
    rw [hd0, hd1, hd2, ht0, ht1]
    simp [isFalsy, isNullish, isNaNval, hy, hmo, hdd]
  unfold calculateEpochFromTimezone
  rw [hinv, hd0, hd1, hd2, ht0, ht1]
  rfl

/-- `convertTime` is the epoch of `calculateEpochFromTimezone` formatted over
the fixed zone list minus the source. -/
theorem convertTime_as_map (tzdb : TZDB) (ds ts src : String) :
    convertTime tzdb ds ts src =
      (calculateEpochFromTimezone tzdb ds ts src).map
        (fun e => (allZones.filter (fun tz => tz != src)).map
          (fun tz => (tz, formatHHMM tzdb e tz))) := by
  unfold convertTime calculateEpochFromTimezone
  cases h : invalidCheck ds ts <;> simp [Except.map]

/-- Looking a supported zone up in a mapping built over `allZones` yields the
formatted value for that zone. -/
theorem lookup_map_allZones (f : String → String) (src : String) (hsrc : src ∈ allZones) :
    List.lookup src (allZones.map fun tz => (tz, f tz)) = some (f src) := by
  fin_cases hsrc <;> rfl

/-- A successful epoch resolution always lands on a whole minute. -/
theorem calcEpoch_dvd (tzdb : TZDB) (ds ts src : String) (e : Int)
    (hok : calculateEpochFromTimezone tzdb ds ts src = .ok e) : (60000 : Int) ∣ e := by
  unfold calculateEpochFromTimezone at hok
  cases h : invalidCheck ds ts with
  | true => rw [h] at hok; exact absurd hok (by simp)
  | false =>
    rw [h] at hok
    simp only [Bool.false_eq_true, if_false, Except.ok.injEq] at hok
    rw [← hok]
    exact dvd_sub (utcMillis_dvd _ _ _ _ _) (dvd_mul_left 60000 _)

/-- Re-resolving a zone's reading recovers the instant exactly whenever the
zone's offset at the re-anchored instant agrees with its offset at the true
instant (that is, away from the zone's own DST cutovers). -/
theorem reResolve_stable (tzdb : TZDB) (e : Int) (z : String)
    (he : (60000 : Int) ∣ e)
    (hst : tzdb z (e + tzdb z e * 60000) = tzdb z e) : reResolve tzdb e z = e := by
  have ha : (e + tzdb z e * 60000) / 60000 * 60000 = e + tzdb z e * 60000 := by omega
  have hg : getOffset tzdb (e + tzdb z e * 60000) z = tzdb z e := by
    rw [getOffset_exact tzdb _ z (by omega), hst]
  show (e + tzdb z e * 60000) / 60000 * 60000 -
      getOffset tzdb ((e + tzdb z e * 60000) / 60000 * 60000) z * 60000 = e
  rw [ha, hg]
  ring

/-- Formatting an instant whose zone-local reading equals given civil fields
renders exactly those fields' hour and minute. -/
theorem formatHHMM_of_eq (tzdb : TZDB) (t : Int) (z : String) (y mo d h mi : Int)
    (hh0 : 0 ≤ h) (hh1 : h < 24) (hm0 : 0 ≤ mi) (hm1 : mi < 60)
    (heq : t + tzdb z t * 60000 = utcMillis y mo d h mi 0) :
    formatHHMM tzdb t z = pad2 h.toNat ++ ":" ++ pad2 mi.toNat := by
  have h1 : utcMillis y mo d h mi 0 % 86400000 / 3600000 = h := by unfold utcMillis; omega
  have h2 : utcMillis y mo d h mi 0 % 3600000 / 60000 = mi := by unfold utcMillis; omega
  show pad2 ((t + tzdb z t * 60000) % 86400000 / 3600000).toNat ++ ":" ++
      pad2 ((t + tzdb z t * 60000) % 3600000 / 60000).toNat = pad2 h.toNat ++ ":" ++ pad2 mi.toNat
  rw [heq, h1, h2]

/-- The spec's enumeration of parse failures: a missing, NaN or zero year,
month or day, or a missing or NaN hour or minute (zero hour and minute are
not listed as failures). -/
def specParseFailure (yv mov dv hv miv : JsVal) : Prop :=
  yv = .missing ∨ yv = .nan ∨ yv = .num 0 ∨
    mov = .missing ∨ mov = .nan ∨ mov = .num 0 ∨
    dv = .missing ∨ dv = .nan ∨ dv = .num 0 ∨
    hv = .missing ∨ hv = .nan ∨ miv = .missing ∨ miv = .nan

/-- The code's validity check matches the spec's enumeration exactly. -/
theorem invalidCheck_iff (ds ts : String) :
    invalidCheck ds ts = true ↔
      specParseFailure (dComp ds 0) (dComp ds 1) (dComp ds 2) (tComp ts 0) (tComp ts 1) := by
  unfold invalidCheck specParseFailure
  generalize dComp ds 0 = yv
  generalize dComp ds 1 = mov
  generalize dComp ds 2 = dv
  generalize tComp ts 0 = hv
  generalize tComp ts 1 = miv
  cases yv <;> cases mov <;> cases dv <;> cases hv <;> cases miv <;>
    (simp [isFalsy, isNullish, isNaNval]; try tauto)

/-! Claim theorems. -/

/-- Claim C1, counterexample: on the valid input date 2025-03-09, time 02:30,
source America/Bogota, the returned mapping reads 03:30 in America/New_York
and 02:30 in America/Bogota, yet re-resolving those two readings back through
the Offset Resolver yields instants a full hour apart (the resolved instant
07:30 UTC lies just after New York's spring-forward cutover, so the New York
re-resolution samples the offset on the wrong side of it) — not within 60
seconds as claimed. -/
theorem C1_counterexample :
    calculateEpochFromTimezone tzdb2025 "2025-03-09" "02:30" "America/Bogota" =
        .ok 1741505400000 ∧
    (convertMulti tzdb2025 "2025-03-09" "02:30" "America/Bogota").map
        (List.lookup "America/New_York") = .ok (some "03:30") ∧
    (convertMulti tzdb2025 "2025-03-09" "02:30" "America/Bogota").map
        (List.lookup "America/Bogota") = .ok (some "02:30") ∧
    reResolve tzdb2025 1741505400000 "America/New_York" -
        reResolve tzdb2025 1741505400000 "America/Bogota" = 3600000 ∧
    ¬ (reResolve tzdb2025 1741505400000 "America/New_York" -
        reResolve tzdb2025 1741505400000 "America/Bogota").natAbs ≤ 60000 :=
  ⟨rfl, rfl, rfl, rfl, by decide⟩

/-- Claim C1, amended: for every valid input, any two target zones' reported
local times re-resolve via the Offset Resolver to the same instant (in fact
exactly the resolved epoch) provided each of the two zones' offsets is stable
between the resolved instant and its re-anchoring — that is, away from those
zones' own DST cutovers. -/
theorem C1_consistency_amended (tzdb : TZDB) (ds ts src A B : String) (e : Int)
    (hok : calculateEpochFromTimezone tzdb ds ts src = .ok e)
    (hA : tzdb A (e + tzdb A e * 60000) = tzdb A e)
    (hB : tzdb B (e + tzdb B e * 60000) = tzdb B e) :
    reResolve tzdb e A = reResolve tzdb e B ∧
      (reResolve tzdb e A - reResolve tzdb e B).natAbs ≤ 60000 := by
  have he := calcEpoch_dvd tzdb ds ts src e hok
  have hA2 := reResolve_stable tzdb e A he hA
  have hB2 := reResolve_stable tzdb e B he hB
  rw [hA2, hB2]
  simp

/-- Claim C1, witness: the amended consistency theorem applied to the concrete
input date 2025-01-15, time 14:30, source America/Santiago, comparing the
America/New_York and America/Bogota readings. -/
theorem C1_witness :
    reResolve tzdb2025 1736962200000 "America/New_York" =
        reResolve tzdb2025 1736962200000 "America/Bogota" ∧
      (reResolve tzdb2025 1736962200000 "America/New_York" -
        reResolve tzdb2025 1736962200000 "America/Bogota").natAbs ≤ 60000 :=
  C1_consistency_amended tzdb2025 "2025-01-15" "14:30" "America/Santiago"
    "America/New_York" "America/Bogota" 1736962200000 rfl (by decide) (by decide)

/-- Claim C2: for every instant and zone the Offset Resolver returns exactly
the negated difference between the instant and its formatted-then-reinterpreted
UTC reading, divided by 60000; and at every whole-second instant this equals
the zone's rule-table offset, so zones east of UTC yield positive minutes and
zones west of UTC yield negative minutes. -/
theorem C2_offset_formula (tzdb : TZDB) (t : Int) (z : String) :
    getOffset tzdb t z = -((t - fmtAsUTC tzdb t z) / 60000) ∧
      ((1000 : Int) ∣ t →
        getOffset tzdb t z = tzdb z t ∧
          (0 < tzdb z t → 0 < getOffset tzdb t z) ∧
          (tzdb z t < 0 → getOffset tzdb t z < 0)) :=
  ⟨rfl, fun ht => by
    have h := getOffset_exact tzdb t z ht
    exact ⟨h, fun hp => h ▸ hp, fun hn => h ▸ hn⟩⟩

/-- Claim C2, witness: the offset formula evaluated at the whole-second
instant 1736962200000 for America/Bogota, a zone west of UTC. -/
theorem C2_witness :
    getOffset tzdb2025 1736962200000 "America/Bogota" =
        tzdb2025 "America/Bogota" 1736962200000 ∧
      getOffset tzdb2025 1736962200000 "America/Bogota" < 0 :=
  ⟨((C2_offset_formula tzdb2025 1736962200000 "America/Bogota").2 (by decide)).1,
    ((C2_offset_formula tzdb2025 1736962200000 "America/Bogota").2 (by decide)).2.2 (by decide)⟩

/-- Claim C3: on every successfully parsed input the converter computes the
absolute instant as the civil fields read as UTC minus 60000 times the source
offset, where that offset is resolved at the provisional anchor (the civil
fields read as UTC), not at the true instant itself. -/
theorem C3_anchor_epoch (tzdb : TZDB) (ds ts src : String) (y mo d h mi : Int)
    (hd0 : dComp ds 0 = .num y) (hd1 : dComp ds 1 = .num mo) (hd2 : dComp ds 2 = .num d)
    (ht0 : tComp ts 0 = .num h) (ht1 : tComp ts 1 = .num mi)
    (hy : y ≠ 0) (hmo : mo ≠ 0) (hdd : d ≠ 0) :
    calculateEpochFromTimezone tzdb ds ts src =
      .ok (utcMillis y mo d h mi 0 -
        getOffset tzdb (utcMillis y mo d h mi 0) src * 60000) :=
  calcEpoch_ok tzdb ds ts src y mo d h mi hd0 hd1 hd2 ht0 ht1 hy hmo hdd

/-- Claim C3, witness: the anchor-epoch equation on the concrete input
date 2025-01-15, time 14:30, source America/Santiago. -/
theorem C3_witness :
    calculateEpochFromTimezone tzdb2025 "2025-01-15" "14:30" "America/Santiago" =
      .ok (utcMillis 2025 1 15 14 30 0 -
        getOffset tzdb2025 (utcMillis 2025 1 15 14 30 0) "America/Santiago" * 60000) :=
  C3_anchor_epoch tzdb2025 "2025-01-15" "14:30" "America/Santiago" 2025 1 15 14 30
    (by decide) (by decide) (by decide) (by decide) (by decide)
    (by decide) (by decide) (by decide)

/-- Claim C4: converting date 2025-01-15, time 14:30 from America/Santiago
maps America/New_York to 12:30 and America/Bogota to 12:30. -/
theorem C4_concrete_scenario :
    (convertMulti tzdb2025 "2025-01-15" "14:30" "America/Santiago").map
        (List.lookup "America/New_York") = .ok (some "12:30") ∧
      (convertMulti tzdb2025 "2025-01-15" "14:30" "America/Santiago").map
        (List.lookup "America/Bogota") = .ok (some "12:30") :=
  ⟨rfl, rfl⟩

/-- Claim C5: the code accepts date 2025-13-01 (month 13) and time 25:61
without error, silently normalising them via `Date.UTC` rollover instead of
raising the invalid-input error the claim requires; only the empty date and
empty time strings are rejected.  The claim states the intended behaviour; the
code's validation, which tests only for falsy and NaN components, is the
slip. -/
theorem C5_invalid_input_gap :
    (convertTime tzdb2025 "2025-13-01" "14:30" "America/Santiago").isOk = true ∧
    (convertTime tzdb2025 "2025-01-15" "25:61" "America/Santiago").isOk = true ∧
    convertTime tzdb2025 "" "14:30" "America/Santiago" =
      .error "Invalid date or time format" ∧
    convertTime tzdb2025 "2025-01-15" "" "America/Santiago" =
      .error "Invalid date or time format" :=
  ⟨rfl, rfl, rfl, rfl⟩

/-- Claim C6: the conversion fails (with the invalid-input error and no
partial result) exactly when a parsed component is missing or NaN, or the
year, month or day is zero; in particular date 2025-01-00 and a time with a
missing minute component are rejected. -/
theorem C6_parse_failure_iff (tzdb : TZDB) (ds ts src : String) :
    ((∃ msg, convertTime tzdb ds ts src = .error msg) ↔
        specParseFailure (dComp ds 0) (dComp ds 1) (dComp ds 2) (tComp ts 0) (tComp ts 1)) ∧
      convertTime tzdb "2025-01-00" "12:30" src = .error "Invalid date or time format" ∧
      convertTime tzdb "2025-01-15" "12" src = .error "Invalid date or time format" := by
  refine ⟨?_, rfl, rfl⟩
  rw [← invalidCheck_iff]
  unfold convertTime
  cases h : invalidCheck ds ts <;> simp [h]

/-- Claim C7, counterexample: converting date 2025-03-09, time 03:00 with
source America/New_York returns 04:00 for America/New_York itself — the
round-trip identity fails because the source offset is sampled at the anchor
instant 03:00 UTC (still standard time) while the resolved instant 08:00 UTC
falls after the spring-forward cutover. -/
theorem C7_roundtrip_counterexample :
    (convertMulti tzdb2025 "2025-03-09" "03:00" "America/New_York").map
        (List.lookup "America/New_York") = .ok (some "04:00") ∧
      ("04:00" : String) ≠ "03:00" :=
  ⟨rfl, by decide⟩

/-- Claim C7, amended: for every valid civil time and supported source zone,
reading back the source zone's own entry returns the input hour and minute
whenever the source zone's offset at the resolved instant equals its offset at
the anchor instant — that is, away from the source zone's DST cutovers. -/
theorem C7_roundtrip_amended (tzdb : TZDB) (ds ts src : String) (y mo d h mi : Int)
    (hd0 : dComp ds 0 = .num y) (hd1 : dComp ds 1 = .num mo) (hd2 : dComp ds 2 = .num d)
    (ht0 : tComp ts 0 = .num h) (ht1 : tComp ts 1 = .num mi)
    (hy : y ≠ 0) (hmo : mo ≠ 0) (hdd : d ≠ 0)
    (hh0 : 0 ≤ h) (hh1 : h < 24) (hm0 : 0 ≤ mi) (hm1 : mi < 60)
    (hsrc : src ∈ allZones)
    (hstable : tzdb src (epochFromFields tzdb y mo d h mi src) =
      tzdb src (utcMillis y mo d h mi 0)) :
    (convertMulti tzdb ds ts src).map (List.lookup src) =
      .ok (some (pad2 h.toNat ++ ":" ++ pad2 mi.toNat)) := by
  have hcalc := calcEpoch_ok tzdb ds ts src y mo d h mi hd0 hd1 hd2 ht0 ht1 hy hmo hdd
  have h1000 : (1000 : Int) ∣ utcMillis y mo d h mi 0 :=
    dvd_trans ⟨60, by norm_num⟩ (utcMillis_dvd y mo d h mi)
  have heq : epochFromFields tzdb y mo d h mi src +
      tzdb src (epochFromFields tzdb y mo d h mi src) * 60000 = utcMillis y mo d h mi 0 := by
    rw [hstable]
    unfold epochFromFields
    rw [getOffset_exact tzdb _ src h1000]
    ring
  unfold convertMulti
  rw [hcalc]
  show Except.ok (List.lookup src (allZones.map
      (fun tz => (tz, formatHHMM tzdb (epochFromFields tzdb y mo d h mi src) tz)))) = _
  rw [lookup_map_allZones _ src hsrc,
    formatHHMM_of_eq tzdb _ src y mo d h mi hh0 hh1 hm0 hm1 heq]

/-- Claim C7, witness: the amended round-trip theorem applied to the concrete
input date 2025-01-15, time 14:30, source America/Santiago. -/
theorem C7_witness :
    (convertMulti tzdb2025 "2025-01-15" "14:30" "America/Santiago").map
        (List.lookup "America/Santiago") =
      .ok (some (pad2 (Int.toNat 14) ++ ":" ++ pad2 (Int.toNat 30))) :=
  C7_roundtrip_amended tzdb2025 "2025-01-15" "14:30" "America/Santiago" 2025 1 15 14 30
    (by decide) (by decide) (by decide) (by decide) (by decide)
    (by decide) (by decide) (by decide)
    (by decide) (by decide) (by decide) (by decide)
    (by decide) (by decide)

/-- Claim C8: on every successfully converted input the legacy converter's
key list is exactly the fixed zone list minus the source zone, with one entry
per remaining zone (four entries when the source is a supported zone). -/
theorem C8_zone_keys (tzdb : TZDB) (ds ts src : String) (l : List (String × String))
    (hok : convertTime tzdb ds ts src = .ok l) (hsrc : src ∈ allZones) :
    l.map Prod.fst = allZones.filter (fun tz => tz != src) ∧ l.length = 4 := by
  rw [convertTime_as_map] at hok
  cases hc : calculateEpochFromTimezone tzdb ds ts src with
  | error msg => rw [hc] at hok; exact absurd hok (by simp [Except.map])
  | ok e =>
    rw [hc] at hok
    simp only [Except.map, Except.ok.injEq] at hok
    subst hok
    constructor
    · rw [List.map_map]
      exact List.map_id _
    · simp only [List.length_map]
      fin_cases hsrc <;> decide

/-- Claim C8, witness: the key-list property on the concrete conversion of
date 2025-01-15, time 14:30 from America/Santiago. -/
theorem C8_witness :
    ([("America/New_York", "12:30"), ("America/Argentina/Buenos_Aires", "14:30"),
        ("America/Bogota", "12:30"), ("America/Santo_Domingo", "13:30")] :
          List (String × String)).map Prod.fst =
        allZones.filter (fun tz => tz != "America/Santiago") ∧
      ([("America/New_York", "12:30"), ("America/Argentina/Buenos_Aires", "14:30"),
        ("America/Bogota", "12:30"), ("America/Santo_Domingo", "13:30")] :
          List (String × String)).length = 4 :=
  C8_zone_keys tzdb2025 "2025-01-15" "14:30" "America/Santiago"
    [("America/New_York", "12:30"), ("America/Argentina/Buenos_Aires", "14:30"),
      ("America/Bogota", "12:30"), ("America/Santo_Domingo", "13:30")]
    rfl (by decide)

/-- Claim C9: on identical inputs the legacy converter and the helper resolve
the same epoch and fail under exactly the same condition — `convertTime` is
the helper's epoch formatted over the fixed zone list minus the source, and
both produce the same error on the same inputs. -/
theorem C9_equiv (tzdb : TZDB) (ds ts src : String) :
    convertTime tzdb ds ts src =
      (calculateEpochFromTimezone tzdb ds ts src).map
        (fun e => (allZones.filter (fun tz => tz != src)).map
          (fun tz => (tz, formatHHMM tzdb e tz))) :=
  convertTime_as_map tzdb ds ts src

/-- Claim C10: a time whose hour or minute component is 0 passes validation
and is converted normally, because hour and minute are only tested for
null/undefined and NaN, unlike year, month and day whose zero values are
rejected by truthiness checks. -/
theorem C10_zero_time_ok (tzdb : TZDB) (ds ts src : String) (y mo d h mi : Int)
    (hd0 : dComp ds 0 = .num y) (hd1 : dComp ds 1 = .num mo) (hd2 : dComp ds 2 = .num d)
    (ht0 : tComp ts 0 = .num h) (ht1 : tComp ts 1 = .num mi)
    (hy : y ≠ 0) (hmo : mo ≠ 0) (hdd : d ≠ 0)
    (_hzero : h = 0 ∨ mi = 0) :
    (convertTime tzdb ds ts src).isOk = true := by
  rw [convertTime_as_map,
    calcEpoch_ok tzdb ds ts src y mo d h mi hd0 hd1 hd2 ht0 ht1 hy hmo hdd]
  rfl

/-- Claim C10, witness: midnight 00:00 on 2025-01-15 converts without error
from America/Bogota. -/
theorem C10_witness :
    (convertTime tzdb2025 "2025-01-15" "00:00" "America/Bogota").isOk = true :=
  C10_zero_time_ok tzdb2025 "2025-01-15" "00:00" "America/Bogota" 2025 1 15 0 0
    (by decide) (by decide) (by decide) (by decide) (by decide)
    (by decide) (by decide) (by decide) (Or.inl rfl)

